import Mathlib

/-!
Verification development for the research pipeline of the pinprofit system:
a shallow embedding of `backend/services/scraper.py` (scoring, filtering,
ranking, the per-listing record construction of the Amazon and Flipkart
adapters, and the retrying fetcher), `backend/services/trend_detector.py`
(the three trend-signal fetchers) and the persistence step of
`backend/routers/research.py`, together with theorems settling the frozen
claims about these components.

Numbers that are Python floats in the source are modelled as rationals `ℚ`;
all arithmetic performed by the scorer (sums of integers and halves,
divisions by fixed powers of ten) is exact in both representations.
Python dicts that act as records are modelled as structures whose
optional keys are `Option` fields; the `_exclude` key written by the
scoring engine is the `exclude` field.
-/

namespace PinProfit

/-- Python `round(x, 1)` — rounding to one decimal place, modelled over `ℚ`
with round-half-up integer rounding.  Every value the scorer rounds is a
multiple of `1/2`, where Python's round-half-to-even convention and this one
agree. -/
def round1 (q : ℚ) : ℚ := (round (q * 10) : ℤ) / 10

/-- Python `round(x, 2)` — rounding to two decimal places. -/
def round2 (q : ℚ) : ℚ := (round (q * 100) : ℤ) / 100

/-- `needle` occurs as a contiguous run inside the character list. -/
def infixOf (needle : List Char) : List Char → Bool
  | [] => needle.isEmpty
  | c :: rest => needle.isPrefixOf (c :: rest) || infixOf needle rest

/-- Python's substring test `needle in hay` on strings. -/
def strContains (hay needle : String) : Bool :=
  infixOf needle.toList hay.toList

/-- Python's `str.lower()`, modelled character-wise (all strings compared by
this pipeline are ASCII, where per-character lowering is exact). -/
def strToLower (s : String) : String := ⟨s.data.map Char.toLower⟩

/-- The badge flags extracted by the Amazon adapter
(`scraper.py` lines 208–212). -/
structure Badges where
  bestseller : Bool := false
  amazons_choice : Bool := false
  deal_of_day : Bool := false
deriving Repr, DecidableEq

/-- One product dict as it flows through the pipeline
(`RawListing`/`ScoredListing` of the spec).  Keys the scrapers may omit are
`Option` fields; keys written by the scoring engine
(`commission_estimate`, `score`, `trend_bonus`, `_exclude`) start as `none`. -/
structure Product where
  title : String := ""
  platform : String := ""
  url : String := ""
  price : Option ℚ := none
  mrp : Option ℚ := none
  discount_pct : Option ℚ := none
  rating : Option ℚ := none
  review_count : Option ℕ := none
  asin : Option String := none
  image_url : Option String := none
  stock_status : String := "In Stock"
  badges : Option Badges := none
  commission_estimate : Option ℚ := none
  score : Option ℚ := none
  trend_bonus : Option ℚ := none
  exclude : Option String := none
deriving Repr, DecidableEq

/-- Result dict of `analyze_google_trends` (`trend_detector.py` 17–76):
only the fields the pipeline reads downstream, plus the error marker. -/
structure TrendsData where
  niche : String := ""
  interest_pct : ℤ := 0
  rising_queries : List (String × ℤ) := []
  breakout_queries : List (String × ℤ) := []
  is_trending : Bool := false
  error : Option String := none
deriving Repr, DecidableEq

/-- Result dict of `detect_realtime_events` (`trend_detector.py` 82–130). -/
structure EventsData where
  niche : String := ""
  trending_topics : List String := []
  detected_events : List String := []
  combined : List String := []
deriving Repr, DecidableEq

/-- Result dict of `scrape_pinterest_trends` (`trend_detector.py` 136–166). -/
structure PinterestData where
  niche : String := ""
  trending_keywords : List String := []
  is_trending_on_pinterest : Bool := false
deriving Repr, DecidableEq

/-- Python truthiness of the `_exclude` entry:
missing key or empty string is falsy. -/
def truthy : Option String → Bool
  | none => false
  | some s => !s.isEmpty

/-- `MIN_SCORE` constant of `scraper.py` (line 20). -/
def MIN_SCORE : ℚ := 70

/-- The commission table of scoring stage 1 (`scraper.py` 497–506),
including the `.get(platform, 10.0)` default. -/
def commissionMap (platform : String) : ℚ :=
  if platform = "amazon" then 12
  else if platform = "myntra" then 15
  else if platform = "meesho" then 18
  else if platform = "flipkart" then 10
  else if platform = "ajio" then 14
  else if platform = "nykaa" then 12
  else if platform = "firstcry" then 10
  else 10

/-- Points of scoring stage 2 (`scraper.py` 513–517): the `elif` ladder on
the rating (after `p.get("rating") or 0`). -/
def ratingPts (rating : ℚ) : ℚ :=
  if 5 ≤ rating then 20
  else if 4.5 ≤ rating then 18
  else if 4 ≤ rating then 14
  else if 3.5 ≤ rating then 7
  else 0

/-- The exclusion guard of stage 2 (`scraper.py` 518): reached only when all
rating branches above failed, i.e. when `rating < 3.5`, and fires when
additionally `rating > 0`. -/
def ratingExcl (rating : ℚ) : Prop := rating < 3.5 ∧ 0 < rating

instance (r : ℚ) : Decidable (ratingExcl r) := by unfold ratingExcl; infer_instance

/-- Points of scoring stage 3 (`scraper.py` 522–527). -/
def reviewPts (reviews : ℕ) : ℚ :=
  if 5000 ≤ reviews then 20
  else if 2000 ≤ reviews then 17
  else if 1000 ≤ reviews then 14
  else if 500 ≤ reviews then 10
  else if 100 ≤ reviews then 5
  else 0

/-- The exclusion guard of stage 3 (`scraper.py` 528): reached only when
`reviews < 100`, fires when `reviews > 0`. -/
def reviewExcl (reviews : ℕ) : Prop := reviews < 100 ∧ 0 < reviews

instance (n : ℕ) : Decidable (reviewExcl n) := by unfold reviewExcl; infer_instance

/-- Points of scoring stage 4 (`scraper.py` 532–536): the whole block is
guarded by Python truthiness `if price:` (price `0` scores nothing). -/
def pricePts (price : ℚ) : ℚ :=
  if price = 0 then 0
  else if 200 ≤ price ∧ price ≤ 5000 then 20
  else if 100 ≤ price ∧ price ≤ 10000 then 12
  else 4

/-- Points of scoring stage 5 (`scraper.py` 539–543). -/
def stockPts (stock : String) : ℚ :=
  if stock = "In Stock" then 15
  else if stock = "Limited Stock" then 8
  else 0

/-- The exclusion branch of stage 5 (`scraper.py` 542–543). -/
def stockExcl (stock : String) : Prop :=
  stock ≠ "In Stock" ∧ stock ≠ "Limited Stock"

instance (s : String) : Decidable (stockExcl s) := by unfold stockExcl; infer_instance

/-- Scoring stage 6, the trend bonuses (`scraper.py` 545–554), written as the
source writes it: a running `score` accumulator touched by four independent
`if`s (`+10` google trending, `+8` keyword hit in the lowercased title,
`+5` bestseller badge, `+3` amazons-choice badge). -/
def trendBonusPts (isGoogleTrending : Bool) (trendingKeywords : List String)
    (title : String) (badges : Option Badges) : ℚ :=
  let s : ℚ := 0
  let s := if isGoogleTrending then s + 10 else s
  let titleLower := strToLower title
  let s := if trendingKeywords.any (fun kw => strContains titleLower kw) then s + 8 else s
  match badges with
  | some b =>
    let s := if b.bestseller then s + 5 else s
    if b.amazons_choice then s + 3 else s
  | none => s

/-- The keyword set built at the top of `_score_products`
(`scraper.py` 487–489): every Pinterest keyword lowercased.  The Python
`set(...)` only feeds an `any`-style membership test downstream, for which
duplicates and iteration order are unobservable, so the lowercased list is a
faithful model. -/
def trendingKeywordsOf (pinterest : PinterestData) : List String :=
  pinterest.trending_keywords.map strToLower

/-- The body of the `for p in products` loop of `_score_products`
(`scraper.py` 492–558): computes the six stage contributions from the
read-only scraped fields and writes `commission_estimate`, `score`
(`min(round(score, 1), 100)`), `trend_bonus = 0` and the final `_exclude`
value (last exclusion writer wins; an exclusion mark is never cleared). -/
def scoreOne (isGoogleTrending : Bool) (trendingKeywords : List String)
    (p : Product) : Product :=
  let platform := strToLower p.platform
  let commissionPct := commissionMap platform
  let price := p.price.getD 0
  let estCommission := round2 (price * commissionPct / 100)
  let s1 := min 25 (commissionPct * 1.5)
  let rating := p.rating.getD 0
  let s2 := ratingPts rating
  let ex2 : Option String :=
    if ratingExcl rating then some "rating_too_low" else p.exclude
  let reviews := p.review_count.getD 0
  let s3 := reviewPts reviews
  let ex3 := if reviewExcl reviews then some "too_few_reviews" else ex2
  let s4 := pricePts price
  let s5 := stockPts p.stock_status
  let ex5 := if stockExcl p.stock_status then some "out_of_stock" else ex3
  let s6 := trendBonusPts isGoogleTrending trendingKeywords p.title p.badges
  let raw := s1 + s2 + s3 + s4 + s5 + s6
  { p with
    commission_estimate := some estCommission
    score := some (min (round1 raw) 100)
    trend_bonus := some 0
    exclude := ex5 }

/-- The filter applied by the final line of `_score_products`
(`scraper.py` 561): keep a product iff `not p.get("_exclude")` and
`(p.get("score") or 0) >= MIN_SCORE`. -/
def keepB (p : Product) : Bool :=
  !truthy p.exclude && decide (MIN_SCORE ≤ p.score.getD 0)

/-- `_score_products` (`scraper.py` 476–561).  The Python function mutates
every dict of `products` in place and then returns the sub-list of
non-excluded, high-scoring dicts; here the mutated list is `products.map …`
and the returned value is its filtering.  `events_data` is accepted and,
as in the source, never read. -/
def score_products (products : List Product) (trends : TrendsData)
    (events : EventsData) (pinterest : PinterestData) : List Product :=
  let _ := events
  let trendingKeywords := trendingKeywordsOf pinterest
  let isGoogleTrending := trends.is_trending
  (products.map (scoreOne isGoogleTrending trendingKeywords)).filter keepB

/-- Sort key comparison of `scrape_all_platforms` (`scraper.py` 73):
`sort(key=lambda x: x.get("score", 0), reverse=True)` — a stable sort that
orders by score descending, ties staying in input order. -/
def scoreDescLe (a b : Product) : Bool :=
  decide (b.score.getD 0 ≤ a.score.getD 0)

/-- The filter of `scrape_all_platforms` line 70:
`(p.get("score") or 0) >= MIN_SCORE`. -/
def keep70 (p : Product) : Bool :=
  decide (MIN_SCORE ≤ p.score.getD 0)

/-- The post-scraping tail of `scrape_all_platforms` (`scraper.py` 66–76):
given the aggregated scraper output `all_products` (the concurrent
network scraping itself is I/O and is an input here), score, filter by
`MIN_SCORE`, and stable-sort by score descending.  This produces the final
candidate list of the pipeline. -/
def scrape_all_platforms_core (all_products : List Product)
    (trends : TrendsData) (events : EventsData)
    (pinterest : PinterestData) : List Product :=
  let scored := score_products all_products trends events pinterest
  let filtered := scored.filter keep70
  filtered.mergeSort scoreDescLe

/-- The normalized product URL used as the dedup identity in the claims:
scheme, host and path with the query string stripped (everything before the
first `?`). -/
def normalizeUrl (url : String) : String :=
  ⟨url.data.takeWhile (fun c => c ≠ '?')⟩

/-- The `discount_pct` expression of the Amazon adapter (`scraper.py` 220):
`round((mrp - price) / mrp * 100, 1) if mrp and price and mrp > price else
None`.  Python truthiness of a float makes `mrp and price` demand both keys
present *and* nonzero. -/
def discountPct (price mrp : Option ℚ) : Option ℚ :=
  match mrp, price with
  | some m, some pr =>
    if m ≠ 0 ∧ pr ≠ 0 ∧ pr < m then some (round1 ((m - pr) / m * 100))
    else none
  | _, _ => none

/-- The product dict appended by the Amazon adapter for one parsed search
result (`scraper.py` 214–227), as a function of the already-extracted
fields. -/
def amazonProduct (title url_ : String) (price mrp rating : Option ℚ)
    (reviewCount : Option ℕ) (asin : String) (imageUrl : Option String)
    (badges : Badges) : Product :=
  { title := title
    platform := "amazon"
    url := url_
    price := price
    mrp := mrp
    discount_pct := discountPct price mrp
    rating := rating
    review_count := reviewCount
    asin := some asin
    image_url := imageUrl
    stock_status := "In Stock"
    badges := some badges }

/-- The product dict appended by the Flipkart adapter for one parsed search
result (`scraper.py` 266–275).  Note: no `discount_pct` key is ever
written, even when both `price` and `mrp` were parsed. -/
def flipkartProduct (title url_ : String) (price mrp rating : Option ℚ)
    (imageUrl : Option String) : Product :=
  { title := title
    platform := "flipkart"
    url := url_
    price := price
    mrp := mrp
    rating := rating
    image_url := imageUrl
    stock_status := "In Stock" }

/-! ## The retrying fetcher `_safe_get` (`scraper.py` 127–143)

One attempt of the loop body is entirely wrapped in `try/except Exception`
(both the sleeps and the HTTP GET), so a single attempt can only end in an
HTTP response with some status code or a caught exception; the function as a
whole therefore always returns normally — either a parsed document or
`None` — which the embedding reflects by being a total function into
`Option`.  The environment is an oracle giving the outcome of each attempt
index. -/

/-- What one fetch attempt can observe: an HTTP response with a status and a
body, or an exception raised (and caught) during the attempt. -/
inductive FetchOutcome where
  | resp (status : ℕ) (body : String)
  | exn (msg : String)
deriving Repr, DecidableEq

/-- The `delays` table of `_safe_get` (`scraper.py` 129). -/
def delays : List ℕ := [0, 5, 15]

/-- The retry loop of `_safe_get`: `go responses attempt remaining` runs the
remaining iterations starting at index `attempt` and returns the result
together with the number of attempts performed.  An attempt index beyond the
`delays` table raises `IndexError` inside the `try` (before the GET) and is
handled like any other caught exception. -/
def safeGetGo (responses : ℕ → FetchOutcome) : ℕ → ℕ → Option String × ℕ
  | attempt, 0 => (none, attempt)
  | attempt, remaining + 1 =>
    if attempt < delays.length then
      match responses attempt with
      | .resp status body =>
        if status = 200 then (some body, attempt + 1)
        else safeGetGo responses (attempt + 1) remaining
      | .exn _ => safeGetGo responses (attempt + 1) remaining
    else safeGetGo responses (attempt + 1) remaining

/-- `_safe_get(url, retries)` (`scraper.py` 127–143): first component is the
returned document (`None` once the retry budget is exhausted without an
HTTP 200), second component the number of attempts made. -/
def safe_get (responses : ℕ → FetchOutcome) (retries : ℕ := 3) :
    Option String × ℕ :=
  safeGetGo responses 0 retries

/-! ## Trend-signal fetchers (`trend_detector.py`)

Each external call that can throw is modelled as an input that is either a
value or a raised exception; the embedded fetcher is a total function on
those inputs, mirroring the `try/except` structure of the source. -/

/-- Outcome of an external call: a value, or an exception (caught by the
fetcher's `try/except`). -/
inductive Ext (α : Type) where
  | ok (val : α)
  | raises (msg : String)

/-- The external data `analyze_google_trends` consumes:
`interest` is the pytrends setup plus `interest_over_time()` mean
(`none` when the frame is empty or lacks the niche column — interest stays
`0`); `related` the rising query list with values from `related_queries()`;
`topics` from `related_topics()`.  A raise in `related`/`topics` is caught
by its own inner `try` (`trend_detector.py` 36–58); a raise in `interest`
is caught by the outer `try` (line 74). -/
structure GoogleEnv where
  interest : Ext (Option ℤ)
  related : Ext (List (String × ℤ))
  topics : Ext (List String)

/-- `analyze_google_trends` (`trend_detector.py` 17–76).  On an exception in
the main body it returns the neutral signal of line 76
(`interest_pct = 0`, `is_trending = False`, the error message recorded);
otherwise `interest_pct` is the integer mean (defaulting to 0) and
`is_trending = interest_pct > 40`. -/
def analyze_google_trends (niche : String) (env : GoogleEnv) : TrendsData :=
  match env.interest with
  | .raises e =>
    { niche := niche, interest_pct := 0, rising_queries := []
      breakout_queries := [], is_trending := false, error := some e }
  | .ok meanOpt =>
    let rising := match env.related with
      | .ok rs => rs
      | .raises _ => []
    let breakout := rising.filter (fun q => 5000 ≤ q.2)
    let pct := meanOpt.getD 0
    { niche := niche, interest_pct := pct, rising_queries := rising
      breakout_queries := breakout, is_trending := pct > 40, error := none }

/-- Outcome of a scraping loop that appends into an accumulator list inside
a `try`: either it completes with the full list, or an exception interrupts
it after some prefix has been collected. -/
inductive LoopFetch where
  | completed (items : List String)
  | failedAfter (collected : List String)

/-- `scrape_pinterest_trends` (`trend_detector.py` 136–166).  On the happy
path the extracted texts are filtered by the niche-mention-or-short test,
deduplicated and truncated to 20 (Python `list(set(...))[:20]`; the model
keeps first occurrences, the only property the pipeline observes being
membership).  If the `try` body raises, the keywords collected so far are
returned as they stand — the dedup/truncation line is skipped.  Either way
the function returns a dict; it never propagates the exception. -/
def scrape_pinterest_trends (niche : String) (fetch : LoopFetch) :
    PinterestData :=
  let keywords := match fetch with
    | .completed texts =>
      ((texts.filter (fun t =>
        strContains (strToLower t) (strToLower niche) || t.length < 50)).eraseDups).take 20
    | .failedAfter collected => collected
  { niche := niche
    trending_keywords := keywords
    is_trending_on_pinterest := keywords.length > 0 }

/-- `detect_realtime_events` (`trend_detector.py` 82–130).  Source A (web
searches, `try` at 96–111) can fail after collecting a prefix of event
snippets; source B (the trending-searches feed, `try` at 114–121) either
yields its topic list (truncated to 20) or leaves `trending_topics` empty.
The combined list is deduplicated (`list(set(...))`, modelled keeping first
occurrences) and truncated to 20. -/
def detect_realtime_events (niche : String) (sourceA : LoopFetch)
    (sourceB : Ext (List String)) : EventsData :=
  let events := match sourceA with
    | .completed items => items
    | .failedAfter collected => collected
  let trendingTopics := match sourceB with
    | .ok topics => topics.take 20
    | .raises _ => []
  { niche := niche
    trending_topics := trendingTopics.take 15
    detected_events := events.take 10
    combined := ((events ++ trendingTopics).eraseDups).take 20 }

/-- The row inserted into the `products` table for one surviving listing by
`run_full_research` step 8 (`research.py` 140–164), restricted to the
scalar columns taken directly from the product dict. -/
structure ProductRow where
  title : String
  platform : String
  original_url : String
  price : Option ℚ
  mrp : Option ℚ
  discount_pct : Option ℚ
  rating : Option ℚ
  review_count : Option ℕ
  asin : Option String
  image_url : Option String
  niche : String
  score : Option ℚ
  trend_bonus : Option ℚ
  commission_estimate : Option ℚ
  stock_status : String
  research_session_id : ℕ
deriving Repr, DecidableEq

/-- The field selection of the insert at `research.py` 141–164. -/
def productRow (niche : String) (sessionId : ℕ) (p : Product) : ProductRow :=
  { title := p.title
    platform := p.platform
    original_url := p.url
    price := p.price
    mrp := p.mrp
    discount_pct := p.discount_pct
    rating := p.rating
    review_count := p.review_count
    asin := p.asin
    image_url := p.image_url
    niche := niche
    score := p.score
    trend_bonus := p.trend_bonus
    commission_estimate := p.commission_estimate
    stock_status := p.stock_status
    research_session_id := sessionId }

/-! ## Concrete inputs used by counterexamples and witnesses -/

/-- Neutral trend context (all structure defaults). -/
def t0 : TrendsData := {}

/-- Neutral events context. -/
def ev0 : EventsData := {}

/-- Neutral Pinterest context (no trending keywords). -/
def pd0 : PinterestData := {}

/-- A product URL shared by two scraped duplicates. -/
def dupUrl : String := "https://www.amazon.in/dp/B0TEST123"

/-- A well-rated Amazon listing. -/
def dupA : Product :=
  { title := "Premium Yoga Mat", platform := "amazon", url := dupUrl
    price := some 500, rating := some 5, review_count := some 6000
    stock_status := "In Stock", badges := some {} }

/-- The same listing scraped again (the Amazon adapter queries two search
URLs) with a slightly different parsed rating, hence a different score. -/
def dupB : Product := { dupA with rating := some 4.6 }

/-- A listing with a disqualifying rating *and* too few reviews. -/
def lowRatingFewReviews : Product :=
  { title := "Cheap Widget", platform := "amazon"
    url := "https://www.amazon.in/dp/B0LOWRATE", price := some 500
    rating := some 3, review_count := some 50, stock_status := "In Stock" }

/-- A fetch oracle answering HTTP 429 on the first two attempts and
HTTP 200 with a document on the third. -/
def resp429then200 : ℕ → FetchOutcome := fun i =>
  if i = 2 then .resp 200 "<html><body>ok</body></html>" else .resp 429 ""

/-- A trend environment in which every external call raises. -/
def gEnvFail : GoogleEnv :=
  { interest := .raises "timeout", related := .raises "timeout"
    topics := .raises "timeout" }

/-- The raw (pre-rounding, pre-capping) score of one product: the sum of the
six stage contributions computed by `scoreOne`. -/
def rawScore (g : Bool) (kws : List String) (p : Product) : ℚ :=
  min 25 (commissionMap (strToLower p.platform) * 1.5)
  + ratingPts (p.rating.getD 0)
  + reviewPts (p.review_count.getD 0)
  + pricePts (p.price.getD 0)
  + stockPts p.stock_status
  + trendBonusPts g kws p.title p.badges

/-- `dupA` after scoring in the neutral trend context:
18 commission points + 20 rating + 20 reviews + 20 price + 15 stock = 93. -/
def dupAScored : Product :=
  { dupA with
    commission_estimate := some 60
    score := some 93
    trend_bonus := some 0 }

/-- `dupB` after scoring: the 4.6 rating earns 18 points, total 91. -/
def dupBScored : Product :=
  { dupB with
    commission_estimate := some 60
    score := some 91
    trend_bonus := some 0 }

/-! ## Helper lemmas -/

theorem round1_nonneg {q : ℚ} (h : 0 ≤ q) : 0 ≤ round1 q := by
  unfold round1
  have h10 : (0:ℚ) ≤ q * 10 := by linarith
  have : (0:ℤ) ≤ round (q * 10) := by
    rw [round_eq]
    exact Int.floor_nonneg.mpr (by linarith)
  have : (0:ℚ) ≤ (round (q * 10) : ℤ) := by exact_mod_cast this
  linarith

theorem commissionMap_nonneg (s : String) : 0 ≤ commissionMap s := by
  unfold commissionMap; split_ifs <;> norm_num

theorem ratingPts_nonneg (r : ℚ) : 0 ≤ ratingPts r := by
  unfold ratingPts; split_ifs <;> norm_num

theorem reviewPts_nonneg (n : ℕ) : 0 ≤ reviewPts n := by
  unfold reviewPts; split_ifs <;> norm_num

theorem pricePts_nonneg (q : ℚ) : 0 ≤ pricePts q := by
  unfold pricePts; split_ifs <;> norm_num

theorem stockPts_nonneg (s : String) : 0 ≤ stockPts s := by
  unfold stockPts; split_ifs <;> norm_num

/-- The running-accumulator form of scoring stage 6 equals the sum of its
four independent bonuses. -/
theorem trendBonusPts_decompose (g : Bool) (kws : List String) (title : String)
    (b : Option Badges) :
    trendBonusPts g kws title b =
      (if g then (10:ℚ) else 0)
      + (if kws.any (fun kw => strContains (strToLower title) kw) then 8 else 0)
      + (if (b.map Badges.bestseller).getD false then 5 else 0)
      + (if (b.map Badges.amazons_choice).getD false then 3 else 0) := by
  cases b <;> simp only [trendBonusPts, Option.map_some', Option.map_none',
    Option.getD_some, Option.getD_none] <;> split_ifs <;>
    first
    | contradiction
    | ring

theorem trendBonusPts_nonneg (g : Bool) (kws : List String) (title : String)
    (b : Option Badges) : 0 ≤ trendBonusPts g kws title b := by
  rw [trendBonusPts_decompose]; split_ifs <;> norm_num

theorem scoreOne_score (g : Bool) (kws : List String) (p : Product) :
    (scoreOne g kws p).score = some (min (round1 (rawScore g kws p)) 100) := rfl

theorem scoreOne_exclude (g : Bool) (kws : List String) (p : Product) :
    (scoreOne g kws p).exclude =
      if stockExcl p.stock_status then some "out_of_stock"
      else if reviewExcl (p.review_count.getD 0) then some "too_few_reviews"
      else if ratingExcl (p.rating.getD 0) then some "rating_too_low"
      else p.exclude := rfl

theorem scoreOne_trend_bonus (g : Bool) (kws : List String) (p : Product) :
    (scoreOne g kws p).trend_bonus = some 0 := rfl

theorem rawScore_nonneg (g : Bool) (kws : List String) (p : Product) :
    0 ≤ rawScore g kws p := by
  unfold rawScore
  have h1 : (0:ℚ) ≤ min 25 (commissionMap (strToLower p.platform) * 1.5) :=
    le_min (by norm_num) (by nlinarith [commissionMap_nonneg (strToLower p.platform)])
  have h2 := ratingPts_nonneg (p.rating.getD 0)
  have h3 := reviewPts_nonneg (p.review_count.getD 0)
  have h4 := pricePts_nonneg (p.price.getD 0)
  have h5 := stockPts_nonneg p.stock_status
  have h6 := trendBonusPts_nonneg g kws p.title p.badges
  linarith

/-- Scoring the already-scored dict again changes nothing: `scoreOne` reads
only fields it does not write, and an `_exclude` chain applied twice equals
itself applied once. -/
theorem scoreOne_idem (g : Bool) (kws : List String) (p : Product) :
    scoreOne g kws (scoreOne g kws p) = scoreOne g kws p := by
  simp only [scoreOne]
  split_ifs <;> rfl

/-- `keep70` absorbed by `keepB`: the line-70 re-filter of the entry point
is redundant after the line-561 filter of `_score_products`. -/
theorem keep70_and_keepB (a : Product) : (keep70 a && keepB a) = keepB a := by
  unfold keep70 keepB
  cases h1 : truthy a.exclude <;>
    cases h2 : decide (MIN_SCORE ≤ a.score.getD 0) <;> simp [h1, h2]

/-- The final candidate list is the stable descending-score sort of the
scored-and-filtered listings (the duplicate `MIN_SCORE` filter collapses). -/
theorem core_eq (ps : List Product) (t : TrendsData) (e : EventsData)
    (pd : PinterestData) :
    scrape_all_platforms_core ps t e pd =
      ((ps.map (scoreOne t.is_trending (trendingKeywordsOf pd))).filter
        keepB).mergeSort scoreDescLe := by
  simp only [scrape_all_platforms_core, score_products]
  congr 1
  rw [List.filter_filter]
  exact List.filter_congr (fun a _ => keep70_and_keepB a)

/-- Membership in the final candidate list. -/
theorem mem_core_iff (ps : List Product) (t : TrendsData) (e : EventsData)
    (pd : PinterestData) (q : Product) :
    q ∈ scrape_all_platforms_core ps t e pd ↔
      q ∈ ps.map (scoreOne t.is_trending (trendingKeywordsOf pd)) ∧
        keepB q = true := by
  rw [core_eq, (List.mergeSort_perm _ _).mem_iff, List.mem_filter]

theorem scoreDescLe_trans (a b c : Product) : scoreDescLe a b → scoreDescLe b c →
    scoreDescLe a c := by
  unfold scoreDescLe
  intro hab hbc
  exact decide_eq_true (le_trans (of_decide_eq_true hbc) (of_decide_eq_true hab))

theorem scoreDescLe_total (a b : Product) : scoreDescLe a b || scoreDescLe b a := by
  unfold scoreDescLe
  rcases le_total (b.score.getD 0) (a.score.getD 0) with h | h <;> simp [h]

/-- Concrete evaluation: scoring `dupA` in the neutral context. -/
theorem scoreOne_dupA : scoreOne false [] dupA = dupAScored := by
  have hplat : strToLower "amazon" = "amazon" := by decide
  simp only [scoreOne, dupA, dupAScored, dupUrl, hplat, Option.getD_some]
  norm_num [commissionMap, ratingPts, reviewPts, pricePts, stockPts,
    trendBonusPts, ratingExcl, reviewExcl, stockExcl, round1, round2,
    round_eq, min_def, strContains, infixOf, strToLower]

/-- Concrete evaluation: scoring `dupB` in the neutral context. -/
theorem scoreOne_dupB : scoreOne false [] dupB = dupBScored := by
  have hplat : strToLower "amazon" = "amazon" := by decide
  simp only [scoreOne, dupB, dupA, dupBScored, dupUrl, hplat, Option.getD_some]
  norm_num [commissionMap, ratingPts, reviewPts, pricePts, stockPts,
    trendBonusPts, ratingExcl, reviewExcl, stockExcl, round1, round2,
    round_eq, min_def, strContains, infixOf, strToLower]

/-- The scored duplicates both pass the `_score_products` filter. -/
theorem score_products_dups :
    score_products [dupA, dupB] t0 ev0 pd0 = [dupAScored, dupBScored] := by
  unfold score_products
  simp only [t0, pd0, trendingKeywordsOf, List.map_nil, List.map_cons,
    scoreOne_dupA, scoreOne_dupB]
  simp only [List.filter_cons, List.filter_nil]
  norm_num [keepB, truthy, MIN_SCORE, dupAScored, dupBScored, dupA, dupB]

theorem safeGetGo_zero (r : ℕ → FetchOutcome) (a : ℕ) :
    safeGetGo r a 0 = (none, a) := rfl

theorem safeGetGo_succ (r : ℕ → FetchOutcome) (a n : ℕ) :
    safeGetGo r a (n + 1) =
      if a < delays.length then
        match r a with
        | .resp status body =>
          if status = 200 then (some body, a + 1) else safeGetGo r (a + 1) n
        | .exn _ => safeGetGo r (a + 1) n
      else safeGetGo r (a + 1) n := rfl

theorem safeGetGo_resp (r : ℕ → FetchOutcome) (a n status : ℕ) (body : String)
    (h : r a = .resp status body) (ha : a < delays.length) :
    safeGetGo r a (n + 1) =
      if status = 200 then (some body, a + 1) else safeGetGo r (a + 1) n := by
  rw [safeGetGo_succ, if_pos ha, h]

theorem safeGetGo_exn (r : ℕ → FetchOutcome) (a n : ℕ) (m : String)
    (h : r a = .exn m) (ha : a < delays.length) :
    safeGetGo r a (n + 1) = safeGetGo r (a + 1) n := by
  rw [safeGetGo_succ, if_pos ha, h]

/-- The fetcher performs at most as many attempts as its retry budget. -/
theorem safeGetGo_attempts (r : ℕ → FetchOutcome) :
    ∀ (n a : ℕ), (safeGetGo r a n).2 ≤ a + n := by
  intro n
  induction n with
  | zero => intro a; simp [safeGetGo_zero]
  | succ n ih =>
    intro a
    by_cases ha : a < delays.length
    · rcases hr : r a with ⟨st, body⟩ | m
      · rw [safeGetGo_resp r a n st body hr ha]
        split_ifs
        · show a + 1 ≤ a + (n + 1)
          omega
        · exact le_trans (ih (a + 1)) (by omega)
      · rw [safeGetGo_exn r a n m hr ha]
        exact le_trans (ih (a + 1)) (by omega)
    · rw [safeGetGo_succ, if_neg ha]
      exact le_trans (ih (a + 1)) (by omega)

/-- If no attempt in the window gets an HTTP 200, the loop exhausts its
budget and falls through to `return None`. -/
theorem safeGetGo_none (r : ℕ → FetchOutcome) :
    ∀ (n a : ℕ), (∀ i, a ≤ i → i < a + n → ∀ b, r i ≠ .resp 200 b) →
      safeGetGo r a n = (none, a + n) := by
  intro n
  induction n with
  | zero => intro a _; simp [safeGetGo_zero]
  | succ n ih =>
    intro a h
    have hrec : safeGetGo r (a + 1) n = (none, a + 1 + n) :=
      ih (a + 1) (fun i h1 h2 b => h i (by omega) (by omega) b)
    have harith : a + 1 + n = a + (n + 1) := by omega
    by_cases ha : a < delays.length
    · rcases hr : r a with ⟨st, body⟩ | m
      · rw [safeGetGo_resp r a n st body hr ha]
        have hst : st ≠ 200 := by
          intro hst
          exact h a (le_refl a) (by omega) body (by rw [hr, hst])
        rw [if_neg hst, hrec, harith]
      · rw [safeGetGo_exn r a n m hr ha, hrec, harith]
    · rw [safeGetGo_succ, if_neg ha, hrec, harith]

/-- C7: `_safe_get` never raises — every branch of an attempt, including the
sleeps, runs inside `try/except Exception`, so the embedding is a total
function into `Option` — and with its default budget of 3 it makes at most
3 attempts, returning `None` once no attempt got an HTTP 200; a server
answering 429, 429, then 200 with a document yields that document on
exactly the third attempt. -/
theorem claim7_fetch_retry (responses : ℕ → FetchOutcome) :
    (safe_get responses 3).2 ≤ 3
    ∧ ((∀ i, i < 3 → ∀ b, responses i ≠ .resp 200 b) →
        safe_get responses 3 = (none, 3))
    ∧ (∀ b1 b2 doc, responses 0 = .resp 429 b1 → responses 1 = .resp 429 b2 →
        responses 2 = .resp 200 doc → doc ≠ "" →
        safe_get responses 3 = (some doc, 3)) := by
  refine ⟨?_, ?_, ?_⟩
  · exact safeGetGo_attempts responses 3 0
  · intro h
    have := safeGetGo_none responses 3 0 (fun i _ hi b => h i (by omega) b)
    simpa using this
  · intro b1 b2 doc h0 h1 h2 _
    show safeGetGo responses 0 3 = (some doc, 3)
    rw [safeGetGo_resp responses 0 2 429 b1 h0 (by decide),
      if_neg (by norm_num),
      safeGetGo_resp responses 1 1 429 b2 h1 (by decide),
      if_neg (by norm_num),
      safeGetGo_resp responses 2 0 200 doc h2 (by decide),
      if_pos rfl]

/-- Witness for C7 at the concrete 429/429/200 oracle. -/
theorem claim7_witness :
    safe_get resp429then200 3 = (some "<html><body>ok</body></html>", 3)
    ∧ (safe_get resp429then200 3).2 ≤ 3 := by
  have h := claim7_fetch_retry resp429then200
  exact ⟨h.2.2 "" "" "<html><body>ok</body></html>" (by decide) (by decide)
    (by decide) (by decide), h.1⟩

/-- C8: none of the three trend-signal fetchers propagates a failure: the
search-interest fetcher degrades to the neutral signal (`interest_pct = 0`,
`is_trending = false`), the Pinterest fetcher returns the keywords collected
before the failure (possibly none), and the real-time-events fetcher
degrades to an empty topic list and the collected event prefix.  Each
embedded fetcher is a total function on environments that include raised
exceptions, mirroring that every external call sits inside `try/except`. -/
theorem claim8_trend_fetchers_degrade (niche : String) :
    (∀ env : GoogleEnv, ∀ e, env.interest = .raises e →
      (analyze_google_trends niche env).interest_pct = 0
      ∧ (analyze_google_trends niche env).is_trending = false
      ∧ (analyze_google_trends niche env).error = some e)
    ∧ (∀ collected,
        (scrape_pinterest_trends niche (.failedAfter collected)).trending_keywords
          = collected
        ∧ (scrape_pinterest_trends niche (.failedAfter collected)).niche = niche)
    ∧ (∀ collected msg,
        (detect_realtime_events niche (.failedAfter collected) (.raises msg)).trending_topics = []
        ∧ (detect_realtime_events niche (.failedAfter collected) (.raises msg)).detected_events
            = collected.take 10
        ∧ (detect_realtime_events niche (.failedAfter collected) (.raises msg)).niche = niche) := by
  refine ⟨?_, ?_, ?_⟩
  · intro env e he
    simp [analyze_google_trends, he]
  · intro collected
    simp [scrape_pinterest_trends]
  · intro collected msg
    simp [detect_realtime_events]

/-- Witness for C8: all three fetchers at concrete failing environments. -/
theorem claim8_witness :
    (analyze_google_trends "yoga mats" gEnvFail).interest_pct = 0
    ∧ (analyze_google_trends "yoga mats" gEnvFail).is_trending = false
    ∧ (analyze_google_trends "yoga mats" gEnvFail).error = some "timeout"
    ∧ (scrape_pinterest_trends "yoga mats" (.failedAfter ["boho decor"])).trending_keywords
        = ["boho decor"]
    ∧ (detect_realtime_events "yoga mats" (.failedAfter []) (.raises "HTTP 500")).trending_topics
        = [] := by
  obtain ⟨h1, h2, h3⟩ :=
    (claim8_trend_fetchers_degrade "yoga mats").1 gEnvFail "timeout" rfl
  exact ⟨h1, h2, h3,
    ((claim8_trend_fetchers_degrade "yoga mats").2.1 ["boho decor"]).1,
    ((claim8_trend_fetchers_degrade "yoga mats").2.2 [] "HTTP 500").1⟩

/-- C2: the final list returned by the pipeline contains exactly the scored
listings with no (truthy) exclusion reason and score at least `MIN_SCORE`
(70); it is sorted by score descending; and it equals the *stable*
merge-sort of the filtered list, so tied scores stay in input order. -/
theorem claim2_filter_and_sort (ps : List Product) (t : TrendsData)
    (e : EventsData) (pd : PinterestData) :
    (∀ q, q ∈ scrape_all_platforms_core ps t e pd ↔
      (q ∈ ps.map (scoreOne t.is_trending (trendingKeywordsOf pd))
        ∧ truthy q.exclude = false ∧ MIN_SCORE ≤ q.score.getD 0))
    ∧ (scrape_all_platforms_core ps t e pd).Pairwise
        (fun a b => b.score.getD 0 ≤ a.score.getD 0)
    ∧ scrape_all_platforms_core ps t e pd =
        ((ps.map (scoreOne t.is_trending (trendingKeywordsOf pd))).filter
          keepB).mergeSort scoreDescLe := by
  refine ⟨?_, ?_, core_eq ps t e pd⟩
  · intro q
    rw [mem_core_iff]
    unfold keepB
    constructor
    · rintro ⟨hm, hk⟩
      rw [Bool.and_eq_true] at hk
      exact ⟨hm, by simpa using hk.1, of_decide_eq_true hk.2⟩
    · rintro ⟨hm, ht, hs⟩
      refine ⟨hm, ?_⟩
      rw [Bool.and_eq_true, ht]
      exact ⟨rfl, decide_eq_true hs⟩
  · rw [core_eq]
    exact (List.sorted_mergeSort scoreDescLe_trans scoreDescLe_total _).imp
      (fun h => of_decide_eq_true h)

/-- C3: every score `scoreOne` assigns is present, between 0 and 100, and a
multiple of one tenth (one decimal place). -/
theorem claim3_score_range (g : Bool) (kws : List String) (p : Product) :
    ∃ s : ℚ, (scoreOne g kws p).score = some s
      ∧ 0 ≤ s ∧ s ≤ 100 ∧ ∃ n : ℤ, s = (n : ℚ) / 10 := by
  refine ⟨min (round1 (rawScore g kws p)) 100, scoreOne_score g kws p,
    le_min (round1_nonneg (rawScore_nonneg g kws p)) (by norm_num),
    min_le_right _ _, ?_⟩
  rcases le_total (round1 (rawScore g kws p)) 100 with h | h
  · exact ⟨round (rawScore g kws p * 10), by rw [min_eq_left h]; rfl⟩
  · exact ⟨1000, by rw [min_eq_right h]; norm_num⟩

/-- C9: the scoring engine is a pure function of its inputs (embedded as a
function, determinism is by construction), and re-running it over the
listing dicts it has already mutated in place changes nothing: the fields it
reads are disjoint from the fields it writes and the exclusion chain is
idempotent, so the returned list is identical run over run. -/
theorem claim9_scoring_deterministic_idempotent (ps : List Product)
    (t : TrendsData) (e : EventsData) (pd : PinterestData) :
    score_products (ps.map (scoreOne t.is_trending (trendingKeywordsOf pd))) t e pd
      = score_products ps t e pd
    ∧ scrape_all_platforms_core
        (ps.map (scoreOne t.is_trending (trendingKeywordsOf pd))) t e pd
      = scrape_all_platforms_core ps t e pd := by
  have hfun : scoreOne t.is_trending (trendingKeywordsOf pd)
      ∘ scoreOne t.is_trending (trendingKeywordsOf pd)
      = scoreOne t.is_trending (trendingKeywordsOf pd) :=
    funext (scoreOne_idem _ _)
  have h : score_products (ps.map (scoreOne t.is_trending (trendingKeywordsOf pd))) t e pd
      = score_products ps t e pd := by
    simp only [score_products, List.map_map, hfun]
  exact ⟨h, by simp only [scrape_all_platforms_core, h]⟩

/-- C10: every listing produced by the scoring engine carries
`trend_bonus = 0` (line 558 unconditionally overwrites it), so every member
of the final candidate list, and the row persisted for it, stores
`trend_bonus = 0` no matter which trend bonuses were added to its score. -/
theorem claim10_trend_bonus_zero (ps : List Product) (t : TrendsData)
    (e : EventsData) (pd : PinterestData) (q : Product)
    (hq : q ∈ scrape_all_platforms_core ps t e pd)
    (niche : String) (sessionId : ℕ) (g : Bool) (kws : List String)
    (p : Product) :
    q.trend_bonus = some 0
    ∧ (productRow niche sessionId q).trend_bonus = some 0
    ∧ (scoreOne g kws p).trend_bonus = some 0 := by
  obtain ⟨hm, _⟩ := (mem_core_iff ps t e pd q).mp hq
  obtain ⟨p', _, rfl⟩ := List.mem_map.mp hm
  exact ⟨rfl, rfl, rfl⟩

/-- Witness for C10: the scored `dupA` is in the final list of a concrete
run and its persisted row stores `trend_bonus = 0`. -/
theorem claim10_witness :
    (scoreOne t0.is_trending (trendingKeywordsOf pd0) dupA).trend_bonus = some 0
    ∧ (productRow "yoga mats" 1
        (scoreOne t0.is_trending (trendingKeywordsOf pd0) dupA)).trend_bonus = some 0
    ∧ (scoreOne false [] dupA).trend_bonus = some 0 := by
  have hq : scoreOne t0.is_trending (trendingKeywordsOf pd0) dupA
      ∈ scrape_all_platforms_core [dupA] t0 ev0 pd0 := by
    rw [mem_core_iff]
    refine ⟨List.mem_map_of_mem _ (by simp), ?_⟩
    show keepB (scoreOne false [] dupA) = true
    rw [scoreOne_dupA]
    norm_num [keepB, truthy, MIN_SCORE, dupAScored, dupA]
  obtain ⟨h1, h2, h3⟩ :=
    claim10_trend_bonus_zero [dupA] t0 ev0 pd0 _ hq "yoga mats" 1 false [] dupA
  exact ⟨h1, h2, h3⟩

/-- C1 (failing evidence): the pipeline performs no deduplication.  Two
Amazon listings sharing the same normalized URL, scoring 93 and 91, both
appear in the final candidate list — the lower-scoring duplicate is not
collapsed into the higher-scoring one, contradicting the module docstring
("Includes scoring, dedup"), the `scrape_all_platforms` docstring
("deduplicate, and return top products") and pipeline step 7. -/
theorem claim1_duplicates_both_survive :
    (scrape_all_platforms_core [dupA, dupB] t0 ev0 pd0).countP
        (fun q => decide (q.platform = "amazon" ∧ normalizeUrl q.url = dupUrl)) = 2
    ∧ (scrape_all_platforms_core [dupA, dupB] t0 ev0 pd0).countP
        (fun q => decide (q.score = some 93)) = 1
    ∧ (scrape_all_platforms_core [dupA, dupB] t0 ev0 pd0).countP
        (fun q => decide (q.score = some 91)) = 1 := by
  have hfilt : (score_products [dupA, dupB] t0 ev0 pd0).filter keep70
      = [dupAScored, dupBScored] := by
    rw [score_products_dups]
    simp only [List.filter_cons, List.filter_nil]
    norm_num [keep70, MIN_SCORE, dupAScored, dupBScored, dupA, dupB]
  have hperm : List.Perm (scrape_all_platforms_core [dupA, dupB] t0 ev0 pd0)
      [dupAScored, dupBScored] := by
    show List.Perm
      (((score_products [dupA, dupB] t0 ev0 pd0).filter keep70).mergeSort
        scoreDescLe) _
    rw [hfilt]
    exact List.mergeSort_perm _ _
  have hurl : normalizeUrl dupUrl = dupUrl := by decide
  refine ⟨?_, ?_, ?_⟩ <;> rw [List.Perm.countP_eq _ hperm] <;>
    norm_num [List.countP_cons, dupAScored, dupBScored, dupA, dupB,
      hurl, decide_eq_true_eq]

/-- C4 counterexample: a listing with rating 3.0 (inside `(0, 3.5)`) whose
review count is 50 ends with exclusion reason `too_few_reviews`, not
`rating_too_low` — stage 3 overwrites the `_exclude` value stage 2 wrote. -/
theorem claim4_reason_overwritten :
    lowRatingFewReviews.rating = some 3
    ∧ (0:ℚ) < 3 ∧ (3:ℚ) < 3.5
    ∧ (scoreOne false [] lowRatingFewReviews).exclude = some "too_few_reviews"
    ∧ ¬ (scoreOne false [] lowRatingFewReviews).exclude = some "rating_too_low" := by
  have hex : (scoreOne false [] lowRatingFewReviews).exclude
      = some "too_few_reviews" := by
    rw [scoreOne_exclude]
    have h1 : ¬ stockExcl lowRatingFewReviews.stock_status := fun h => h.1 rfl
    have h2 : reviewExcl (lowRatingFewReviews.review_count.getD 0) :=
      ⟨by norm_num [lowRatingFewReviews], by norm_num [lowRatingFewReviews]⟩
    rw [if_neg h1, if_pos h2]
  exact ⟨rfl, by norm_num, by norm_num, hex, by rw [hex]; simp⟩

/-- C4 amended: any present rating strictly between 0 and 3.5 marks the
listing excluded (the stored reason is `rating_too_low` unless a later stage
overwrites it) and keeps it out of the final candidate list regardless of
its other fields, and such a rating earns 0 points; an absent rating (read
as 0) earns 0 points and never triggers the rating exclusion. -/
theorem claim4_low_rating_always_excluded (ps : List Product) (t : TrendsData)
    (e : EventsData) (pd : PinterestData) (p : Product) (r : ℚ)
    (hr : p.rating = some r) (h0 : 0 < r) (h35 : r < 3.5) :
    truthy (scoreOne t.is_trending (trendingKeywordsOf pd) p).exclude = true
    ∧ scoreOne t.is_trending (trendingKeywordsOf pd) p
        ∉ scrape_all_platforms_core ps t e pd
    ∧ ratingPts r = 0
    ∧ ratingPts ((none : Option ℚ).getD 0) = 0
    ∧ ¬ ratingExcl ((none : Option ℚ).getD 0) := by
  have htr : truthy (scoreOne t.is_trending (trendingKeywordsOf pd) p).exclude
      = true := by
    rw [scoreOne_exclude]
    split_ifs with hs hrev hrat
    · rfl
    · rfl
    · rfl
    · exact absurd (show ratingExcl (p.rating.getD 0) by
        rw [hr]; exact ⟨h35, h0⟩) hrat
  refine ⟨htr, ?_, ?_, by norm_num [ratingPts],
    by intro h; exact absurd h.2 (lt_irrefl 0)⟩
  · intro hmem
    obtain ⟨-, hk⟩ := (mem_core_iff ps t e pd _).mp hmem
    unfold keepB at hk
    rw [Bool.and_eq_true, htr] at hk
    exact absurd hk.1 (by simp)
  · unfold ratingPts
    rw [if_neg (not_le.mpr (by linarith)), if_neg (not_le.mpr (by linarith)),
      if_neg (not_le.mpr (by linarith)), if_neg (not_le.mpr (by linarith))]

/-- Witness for C4 at rating 3.0 with 50 reviews. -/
theorem claim4_witness :
    truthy (scoreOne t0.is_trending (trendingKeywordsOf pd0)
        lowRatingFewReviews).exclude = true
    ∧ scoreOne t0.is_trending (trendingKeywordsOf pd0) lowRatingFewReviews
        ∉ scrape_all_platforms_core [lowRatingFewReviews] t0 ev0 pd0
    ∧ ratingPts 3 = 0
    ∧ ratingPts ((none : Option ℚ).getD 0) = 0
    ∧ ¬ ratingExcl ((none : Option ℚ).getD 0) :=
  claim4_low_rating_always_excluded [lowRatingFewReviews] t0 ev0 pd0
    lowRatingFewReviews 3 rfl (by norm_num) (by norm_num)

/-- C5 counterexample: a Flipkart listing with `price = 1000`, `mrp = 2000`
(both present, `mrp > price`) carries no `discount_pct` — only the Amazon
adapter computes it; and even the Amazon adapter omits it for a present but
zero price (Python truthiness), although `mrp > price` holds. -/
theorem claim5_flipkart_no_discount :
    (flipkartProduct "Yoga Mat" "https://www.flipkart.com/p/x" (some 1000)
        (some 2000) none none).price = some 1000
    ∧ (flipkartProduct "Yoga Mat" "https://www.flipkart.com/p/x" (some 1000)
        (some 2000) none none).mrp = some 2000
    ∧ (1000:ℚ) < 2000
    ∧ (flipkartProduct "Yoga Mat" "https://www.flipkart.com/p/x" (some 1000)
        (some 2000) none none).discount_pct = none
    ∧ (amazonProduct "A" "https://www.amazon.in/dp/A" (some 0) (some 100)
        none none "A" none {}).discount_pct = none
    ∧ (0:ℚ) < 100 := by
  refine ⟨rfl, rfl, by norm_num, rfl, ?_, by norm_num⟩
  show discountPct (some 0) (some 100) = none
  simp only [discountPct]
  rw [if_neg]
  rintro ⟨-, h, -⟩
  exact h rfl

/-- C5 amended: only the Amazon adapter sets `discount_pct`: when price and
mrp are both present and nonzero and `mrp > price` it equals
`round((mrp - price) / mrp * 100, 1)`, and in every other case (price or mrp
absent, zero, or `mrp ≤ price`) it is absent; Flipkart listings never carry
`discount_pct`. -/
theorem claim5_discount_formula (title u asin : String) (img : Option String)
    (rating : Option ℚ) (rc : Option ℕ) (b : Badges) (pr m : ℚ)
    (h0 : 0 < pr) (hlt : pr < m) :
    (amazonProduct title u (some pr) (some m) rating rc asin img b).discount_pct
      = some (round1 ((m - pr) / m * 100))
    ∧ (∀ t2 u2 pz mz rz iz, (flipkartProduct t2 u2 pz mz rz iz).discount_pct = none)
    ∧ (∀ a c : ℚ, ¬ a < c → discountPct (some a) (some c) = none)
    ∧ (∀ c : ℚ, discountPct (some 0) (some c) = none)
    ∧ (∀ a : ℚ, discountPct (some a) (some 0) = none)
    ∧ (∀ mz, discountPct none mz = none)
    ∧ (∀ a : Option ℚ, discountPct a none = none) := by
  refine ⟨?_, fun _ _ _ _ _ _ => rfl, ?_, ?_, ?_, ?_, ?_⟩
  · show discountPct (some pr) (some m) = some (round1 ((m - pr) / m * 100))
    simp only [discountPct]
    rw [if_pos ⟨ne_of_gt (lt_trans h0 hlt), ne_of_gt h0, hlt⟩]
  · intro a c h
    simp only [discountPct]
    rw [if_neg]
    rintro ⟨-, -, hlt2⟩
    exact h hlt2
  · intro c
    simp only [discountPct]
    rw [if_neg]
    rintro ⟨-, h, -⟩
    exact h rfl
  · intro a
    simp only [discountPct]
    rw [if_neg]
    rintro ⟨h, -, -⟩
    exact h rfl
  · intro mz
    cases mz <;> rfl
  · intro a
    cases a <;> rfl

/-- Witness for C5: price 1000, mrp 2000 gives exactly 50.0. -/
theorem claim5_witness :
    (amazonProduct "Yoga Mat" "https://www.amazon.in/dp/B1" (some 1000)
      (some 2000) none none "B1" none {}).discount_pct = some 50 := by
  have h := (claim5_discount_formula "Yoga Mat" "https://www.amazon.in/dp/B1"
    "B1" none none none {} 1000 2000 (by norm_num) (by norm_num)).1
  rw [h]
  norm_num [round1, round_eq]

/-- C6 counterexample: with a trending niche, a keyword hit, and both
badges, the trend-bonus stage adds 10 + 8 + 5 + 3 = 26 points — more than
the claimed cap of 25. -/
theorem claim6_bonus_26 :
    trendBonusPts true ["yoga"] "Best Yoga Mat"
      (some { bestseller := true, amazons_choice := true }) = 26
    ∧ ¬ trendBonusPts true ["yoga"] "Best Yoga Mat"
        (some { bestseller := true, amazons_choice := true }) ≤ 25 := by
  have hkw : (["yoga"].any fun kw =>
      strContains (strToLower "Best Yoga Mat") kw) = true := by decide
  have h : trendBonusPts true ["yoga"] "Best Yoga Mat"
      (some { bestseller := true, amazons_choice := true }) = 26 := by
    rw [trendBonusPts_decompose, hkw]
    norm_num
  exact ⟨h, by rw [h]; norm_num⟩

/-- C6 amended: the trend-bonus stage adds exactly +10 for a trending
niche, +8 for a keyword hit in the title, +5 for the bestseller badge and
+3 for the amazons-choice badge, and therefore contributes at most 26 (not
25) points, never negative. -/
theorem claim6_trend_bonus_decomposition (g : Bool) (kws : List String)
    (title : String) (b : Option Badges) :
    trendBonusPts g kws title b =
      (if g then (10:ℚ) else 0)
      + (if kws.any (fun kw => strContains (strToLower title) kw) then 8 else 0)
      + (if (b.map Badges.bestseller).getD false then 5 else 0)
      + (if (b.map Badges.amazons_choice).getD false then 3 else 0)
    ∧ trendBonusPts g kws title b ≤ 26
    ∧ 0 ≤ trendBonusPts g kws title b := by
  refine ⟨trendBonusPts_decompose g kws title b, ?_,
    trendBonusPts_nonneg g kws title b⟩
  rw [trendBonusPts_decompose]
  split_ifs <;> norm_num

end PinProfit
